import Mathlib

/-!
Shallow embedding of the Pasada-Analytics ingestion/migration/forecast pipeline
(TypeScript sources under src/) and proofs about it.

Conventions of the embedding:
* JavaScript numbers reaching the encoder are modelled by `JsNum`:
  `undef` (undefined/null), `nan` (NaN), or `val q` for a finite value,
  with rationals standing in for finite doubles (every computation the
  theorems evaluate stays inside dyadic/decimal rationals, where double
  arithmetic is exact).
* `parseInt(x.toString())` on a finite number truncates toward zero
  (`jsTrunc`); `Math.round` is floor of x + 1/2 (`jsRound`).
* Network effects (HTTP fetch, JS `Date` parsing) are environment inputs:
  a date parser is passed as a function `String → Option ℤ` (milliseconds
  since epoch, `none` for an invalid date), an HTTP response as its status.
-/

namespace Pasada

/-- A JavaScript number slot: undefined/null, NaN, or a finite value. -/
inductive JsNum where
  | undef : JsNum
  | nan : JsNum
  | val : ℚ → JsNum
deriving DecidableEq

/-- JS truthiness test used by `if (!x)` on a number slot:
undefined, null, NaN and 0 are falsy. -/
def JsNum.falsy : JsNum → Bool
  | .undef => true
  | .nan => true
  | .val q => q = 0

/-- The finite value carried by a `JsNum` (0 for undef/NaN; only used
under a validity guard). -/
def JsNum.getQ : JsNum → ℚ
  | .val q => q
  | _ => 0

/-- Math.round: rounds half toward positive infinity. -/
def jsRound (q : ℚ) : ℤ := (q + 1/2).floor

/-- parseInt(x.toString()) for a finite JS number: truncation toward zero. -/
def jsTrunc (q : ℚ) : ℤ := if 0 ≤ q then q.floor else -((-q).floor)

/-- QuestDBService.isValidNumber (questdbServices.ts:249-251):
`value !== null && value !== undefined && !isNaN(Number(value))`. -/
def isValidNumber : JsNum → Bool
  | .undef => false
  | .nan => false
  | .val _ => true

/-- QuestDBService.sanitizeInteger (questdbServices.ts:253-259):
`parseInt(value.toString())`, throwing on NaN (undefined and NaN both
stringify to non-numeric text, hence parse to NaN). -/
def sanitizeInteger : JsNum → Except String ℤ
  | .undef => .error "Invalid value: undefined"
  | .nan => .error "Invalid value: NaN"
  | .val q => .ok (jsTrunc q)

/-- Rounding of QuestDBService.sanitizeFloat (questdbServices.ts:261-267)
on a finite value: `Math.round(num * 10^p) / 10^p`. -/
def sanitizeFloatVal (p : ℕ) (q : ℚ) : ℚ := (jsRound (q * 10 ^ p) : ℚ) / 10 ^ p

/-- QuestDBService.sanitizeFloat: `parseFloat(value.toString())`, throwing
on NaN, then rounding to `p` decimal places. -/
def sanitizeFloat (p : ℕ) : JsNum → Except String ℚ
  | .undef => .error "Invalid float: undefined"
  | .nan => .error "Invalid float: NaN"
  | .val q => .ok (sanitizeFloatVal p q)

/-- WeeklyRouteData (questdbServices.ts:15-28). `week_start` is the raw
string; every numeric column may arrive undefined/NaN from the source row. -/
structure WeeklyRouteData where
  week_start : String
  route_id : JsNum
  sample_count : JsNum
  avg_traffic_density : JsNum
  min_traffic_density : JsNum
  max_traffic_density : JsNum
  avg_duration_seconds : JsNum
  avg_duration_in_traffic_seconds : JsNum
  avg_traffic_penalty_fraction : JsNum
  total_distance_meters : JsNum
  avg_speed_kmh : JsNum
  peak_hour : JsNum

/-- A serialized field value of an ILP line: integer (`i` suffix), float,
or quoted string. -/
inductive FieldVal where
  | int : ℤ → FieldVal
  | float : ℚ → FieldVal
  | str : String → FieldVal
deriving DecidableEq

/-- An encoded line: measurement name, the route_id tag, the named fields in
emission order, and the timestamp in nanoseconds. -/
structure ILPLine where
  table : String
  route_id_tag : ℤ
  fields : List (String × FieldVal)
  tsNanos : ℤ
deriving DecidableEq

/-- Sanitization of the route id tag (questdbServices.ts:190-194):
`Math.abs(parseInt(data.route_id.toString()))` with an isNaN re-check. -/
def parseIntAbs : JsNum → Except String ℤ
  | .undef => .error "Invalid route_id: must be numeric"
  | .nan => .error "Invalid route_id: must be numeric"
  | .val q => .ok |jsTrunc q|

/-- One optional integer field push (questdbServices.ts:223-239 pattern):
`if (isValidNumber(v)) fields.push(name + sanitizeInteger(v) + i)`. -/
def optIntField (name : String) (v : JsNum) : List (String × FieldVal) :=
  if isValidNumber v then [(name, .int (jsTrunc v.getQ))] else []

/-- One optional float field push (questdbServices.ts:214-236 pattern):
`if (isValidNumber(v)) fields.push(name + sanitizeFloat(v, p))`. -/
def optFloatField (name : String) (p : ℕ) (v : JsNum) : List (String × FieldVal) :=
  if isValidNumber v then [(name, .float (sanitizeFloatVal p v.getQ))] else []

/-- The field list built by createILPLine (questdbServices.ts:208-240):
required `sample_count` first, then each optional column guarded by
`isValidNumber`. -/
def ilpFields (d : WeeklyRouteData) (sc : ℤ) : List (String × FieldVal) :=
  [("sample_count", .int sc)]
    ++ optFloatField "avg_traffic_density" 4 d.avg_traffic_density
    ++ optFloatField "min_traffic_density" 4 d.min_traffic_density
    ++ optFloatField "max_traffic_density" 4 d.max_traffic_density
    ++ optIntField "avg_duration_seconds" d.avg_duration_seconds
    ++ optIntField "avg_duration_in_traffic_seconds" d.avg_duration_in_traffic_seconds
    ++ optFloatField "avg_traffic_penalty_fraction" 4 d.avg_traffic_penalty_fraction
    ++ optIntField "total_distance_meters" d.total_distance_meters
    ++ optFloatField "avg_speed_kmh" 2 d.avg_speed_kmh
    ++ optIntField "peak_hour" d.peak_hour

/-- QuestDBService.createILPLine (questdbServices.ts:184-247).
`parseDate s` models `new Date(s + "T00:00:00+08:00").getTime()`:
`none` for an invalid date, `some ms` for a valid instant. -/
def createILPLine (parseDate : String → Option ℤ) (d : WeeklyRouteData) :
    Except String ILPLine :=
  if d.route_id.falsy || d.week_start = "" then
    .error "Invalid data: route_id and week_start are required"
  else
    match parseIntAbs d.route_id with
    | .error e => .error e
    | .ok routeId =>
      match parseDate d.week_start with
      | none => .error "Invalid week_start: must be a valid date"
      | some ms =>
        match sanitizeInteger d.sample_count with
        | .error e => .error e
        | .ok sc =>
          let fields := ilpFields d sc
          if fields.isEmpty then .error "No valid fields found in data"
          else .ok ⟨"route_weekly_summary", routeId, fields, ms * 1000000⟩

/-- An HTTP response, reduced to its status code. -/
structure HttpResponse where
  status : ℕ
deriving DecidableEq

/-- node-fetch `response.ok`: status in the 2xx range. -/
def HttpResponse.respOk (r : HttpResponse) : Bool :=
  decide (200 ≤ r.status) && decide (r.status < 300)

/-- Outcome of a write path: whether the POST to the ingest endpoint was
issued, and the value returned/thrown to the caller. -/
structure WriteOutcome where
  fetched : Bool
  result : Except String Unit

/-- QuestDBService.pushToQuestDB (questdbServices.ts:156-182): early return
on empty data; encode all rows (a row that fails validation aborts before
any POST); POST; throw on any non-2xx response. -/
def pushToQuestDB (parseDate : String → Option ℤ) (data : List WeeklyRouteData)
    (resp : HttpResponse) : WriteOutcome :=
  if data.isEmpty then ⟨false, .ok ()⟩
  else
    match data.mapM (createILPLine parseDate) with
    | .error e => ⟨false, .error ("Failed to push to QuestDB: Error: " ++ e)⟩
    | .ok _lines =>
      if resp.respOk then ⟨true, .ok ()⟩
      else ⟨true, .error "Failed to push to QuestDB: Error: QuestDB ILP failed"⟩

/-- TrafficData (questdbServices.ts:30-38). -/
structure TrafficData where
  timestamp : String
  routeId : JsNum
  trafficDensity : JsNum
  duration : JsNum
  durationInTraffic : JsNum
  distance : JsNum
  status : String

/-- The per-record encoding inlined in saveTrafficDataToQuestDB
(questdbServices.ts:273-285): timestamp to nanoseconds, sanitized tag and
fields, all unconditionally (a NaN here throws, unlike createILPLine's
guarded optional fields). -/
def encodeTrafficLine (parseDate : String → Option ℤ) (d : TrafficData) :
    Except String ILPLine := do
  let ms ← match parseDate d.timestamp with
    | none => Except.error "RangeError: NaN cannot be converted to a BigInt"
    | some ms => Except.ok ms
  let rid ← sanitizeInteger d.routeId
  let dens ← sanitizeFloat 4 d.trafficDensity
  let dur ← sanitizeInteger d.duration
  let durT ← sanitizeInteger d.durationInTraffic
  let dist ← sanitizeInteger d.distance
  pure ⟨"traffic_analytics", rid,
    [("traffic_density", .float dens), ("duration", .int dur),
     ("duration_in_traffic", .int durT), ("distance", .int dist),
     ("status", .str d.status)], ms * 1000000⟩

/-- QuestDBService.saveTrafficDataToQuestDB (questdbServices.ts:269-299):
early return on empty data; encode all rows; POST the joined lines.
The fetch response is never inspected (there is no `response.ok` check in
the source), so the call returns normally for every response status. -/
def saveTrafficDataToQuestDB (parseDate : String → Option ℤ)
    (data : List TrafficData) (resp : HttpResponse) : WriteOutcome :=
  if data.isEmpty then ⟨false, .ok ()⟩
  else
    match data.mapM (encodeTrafficLine parseDate) with
    | .error e => ⟨false, .error e⟩
    | .ok _lines =>
      let _ := resp
      ⟨true, .ok ()⟩

/-- Trace of one AnalyticsService.saveTrafficDataDual call: which sinks
were invoked, and the overall result. -/
structure DualWriteTrace where
  dbAttempted : Bool
  qdbAttempted : Bool
  result : Except String Unit

/-- AnalyticsService.saveTrafficDataDual (analyticsService.ts:80-95).
Each configured sink is an optional behavior function; the body is
`try { if (db) await db.save; if (qdb) await qdb.save } catch { log; throw }`,
so a relational failure rethrows before the QuestDB sink is touched. -/
def saveTrafficDataDual (records : List TrafficData)
    (dbSink : Option (List TrafficData → Except String Unit))
    (qdbSink : Option (List TrafficData → Except String Unit)) : DualWriteTrace :=
  match dbSink with
  | some db =>
    match db records with
    | .error e => ⟨true, false, .error e⟩
    | .ok () =>
      match qdbSink with
      | some qdb => ⟨true, true, qdb records⟩
      | none => ⟨true, false, .ok ()⟩
  | none =>
    match qdbSink with
    | some qdb => ⟨false, true, qdb records⟩
    | none => ⟨false, false, .ok ()⟩

/-- Why the batch loop of migrateTrafficAnalytics stopped. -/
inductive StopReason where
  | noRecords
  | offsetGuard
  | emptyFetch
deriving DecidableEq

/-- Observable trace of the batch loop: each fetch as (offset, rows
returned), each destination write as its row count, the migrated total,
and the stop reason. -/
structure LoopTrace where
  fetches : List (ℕ × ℕ)
  writes : List ℕ
  totalMigrated : ℕ
  stopReason : StopReason
deriving DecidableEq

/-- The `while (offset < totalRecords)` loop of migrateTrafficAnalytics
(migrateToQuestDB.ts:144-183). A fetch with LIMIT batchSize OFFSET offset
against the ordered source of `sourceRows` rows returns
`min batchSize (sourceRows - offset)` rows; an empty fetch breaks; writes
happen only when not dryRun; offset always advances by batchSize. -/
def migrateLoop (sourceRows total batchSize : ℕ) (dryRun : Bool) (offset : ℕ) :
    LoopTrace :=
  if h : offset < total then
    if hf : min batchSize (sourceRows - offset) = 0 then
      ⟨[(offset, 0)], [], 0, .emptyFetch⟩
    else
      let fetched := min batchSize (sourceRows - offset)
      let rest := migrateLoop sourceRows total batchSize dryRun (offset + batchSize)
      ⟨(offset, fetched) :: rest.fetches,
       if dryRun then rest.writes else fetched :: rest.writes,
       fetched + rest.totalMigrated,
       rest.stopReason⟩
  else
    ⟨[], [], 0, .offsetGuard⟩
termination_by total - offset
decreasing_by
  have hb : 0 < batchSize := by
    rcases Nat.eq_zero_or_pos batchSize with h0 | h0
    · subst h0; simp at hf
    · exact h0
  omega

/-- Trace of one migrateTrafficAnalytics call (migrateToQuestDB.ts:87-186):
the counted total from the COUNT query over the filtered source, and the
batch-loop trace. The count and the batches see the same source, so the
snapshot equals `sourceRows`. -/
structure MigrationTrace where
  totalRecords : ℕ
  loop : LoopTrace
deriving DecidableEq

/-- QuestDBMigration.migrateTrafficAnalytics: count, early return when the
count is zero, otherwise the batch loop from offset 0. -/
def migrateTrafficAnalytics (sourceRows batchSize : ℕ) (dryRun : Bool) :
    MigrationTrace :=
  let totalRecords := sourceRows
  if totalRecords = 0 then ⟨totalRecords, ⟨[], [], 0, .noRecords⟩⟩
  else ⟨totalRecords, migrateLoop sourceRows totalRecords batchSize dryRun 0⟩

/-- Trace of one QuestDBMigration.migrate call (migrateToQuestDB.ts:39-85):
the traffic-data phase plus the weekly-summary phase, which runs only when
not dryRun (lines 66-68) and issues one pushToQuestDB per week whose
summary row count is nonzero. `weeklySummaryRows` lists the per-week
summary row counts the source would produce. -/
structure MigrateRun where
  traffic : MigrationTrace
  weeklyPushes : ℕ
deriving DecidableEq

/-- QuestDBMigration.migrate. -/
def migrate (sourceRows batchSize : ℕ) (dryRun : Bool)
    (weeklySummaryRows : List ℕ) : MigrateRun :=
  ⟨migrateTrafficAnalytics sourceRows batchSize dryRun,
   if dryRun then 0 else (weeklySummaryRows.filter (fun n => n ≠ 0)).length⟩

/-! Forecasting (bookingsAnalyticsService.ts, weeklyAnalyticsService.ts,
trafficAnalyticsService.ts). Calendar dates are abstracted to day-of-week
values: each history point carries the `getUTCDay()` of its date, and the
day-of-week of "today + i days" is `(startDow + i) % 7`. -/

/-- One day of the daily-counts history (BookingFrequencyPoint with the
date reduced to its UTC day-of-week). -/
structure HistPoint where
  dow : Fin 7
  count : ℤ
deriving DecidableEq

/-- Day-of-week of the date `i` days after a date whose day-of-week is
`start`. -/
def dowAfter (start : Fin 7) (i : ℕ) : Fin 7 :=
  ⟨(start.val + i) % 7, Nat.mod_lt _ (by norm_num)⟩

/-- The per-weekday accumulation of getSevenDayForecast
(bookingsAnalyticsService.ts:75-80): for weekday `d`, the sum of counts
and the number of history days falling on `d`. -/
def dowSums (history : List HistPoint) (d : Fin 7) : ℤ × ℕ :=
  (((history.filter (fun p => p.dow = d)).map (fun p => p.count)).sum,
   (history.filter (fun p => p.dow = d)).length)

/-- bookingsAnalyticsService.ts:82: average per weekday, 0 when that
weekday never occurs in the history. -/
def weekdayAvg (history : List HistPoint) (d : Fin 7) : ℚ :=
  let s := dowSums history d
  if 0 < s.2 then (s.1 : ℚ) / (s.2 : ℚ) else 0

/-- `history.slice(-14)` (bookingsAnalyticsService.ts:85): the most recent
14 days (the whole history when shorter). -/
def lastFourteen (history : List HistPoint) : List HistPoint :=
  history.drop (history.length - 14)

/-- The mean-centered ordinary-least-squares slope over the last 14 daily
counts (bookingsAnalyticsService.ts:86-98); 0 when fewer than 2 points. -/
def trendSlope (history : List HistPoint) : ℚ :=
  let l := lastFourteen history
  if 2 ≤ l.length then
    let n : ℚ := l.length
    let xMean : ℚ := (n - 1) / 2
    let yMean : ℚ := ((l.map (fun p => p.count)).sum : ℤ) / n
    let num := (l.enum.map
      (fun ip => ((ip.1 : ℚ) - xMean) * ((ip.2.count : ℚ) - yMean))).sum
    let den := (l.enum.map
      (fun ip => ((ip.1 : ℚ) - xMean) * ((ip.1 : ℚ) - xMean))).sum
    if 0 < den then num / den else 0
  else 0

/-- The booking-forecast confidence formula
(bookingsAnalyticsService.ts:109): `min(0.95, 0.4 + min(1, n / 8) * 0.5)`
where `n` is the weekday's sample count. -/
def bookingConfidence (n : ℕ) : ℚ :=
  min (95/100) (4/10 + min 1 ((n : ℚ) / 8) * (5/10))

/-- One point of the 7-day booking forecast; `dayOffset` is `i` in 1..7
and `dow` the target day's weekday. -/
structure BookingForecastPoint where
  dayOffset : ℕ
  dow : Fin 7
  predicted_count : ℤ
  confidence : ℚ
deriving DecidableEq

/-- BookingsAnalyticsService.getSevenDayForecast, forecast part
(bookingsAnalyticsService.ts:100-111): for i = 1..7, predicted =
`Math.max(0, Math.round(avgs[dow] + slope * (history.length + i -
history.length)))`. -/
def getSevenDayForecast (history : List HistPoint) (startDow : Fin 7) :
    List BookingForecastPoint :=
  let slope := trendSlope history
  (List.range 7).map (fun k =>
    let i := k + 1
    let dow := dowAfter startDow i
    let base := weekdayAvg history dow
    let trendAdj := slope * (((history.length : ℚ) + (i : ℚ)) - (history.length : ℚ))
    let predicted : ℤ := max 0 (jsRound (base + trendAdj))
    let confidence := bookingConfidence (dowSums history dow).2
    ⟨i, dow, predicted, confidence⟩)

/-- One row of the hourly 4-week-lookback aggregate fed to
WeeklyAnalyticsService.createPredictions, already parsed from its string
cells: hour, avg(traffic_density), count(*). -/
structure HistRow where
  hour : ℤ
  avg_density : ℚ
  data_points : ℕ
deriving DecidableEq

/-- The weekly-predictions confidence (weeklyAnalyticsService.ts:98-100):
`historicalRow && dataPoints > 5 ? Math.min(0.9, 0.3 + dataPoints * 0.1)
: 0.3`. -/
def weeklyConfidence (found : Bool) (dataPoints : ℕ) : ℚ :=
  if found ∧ 5 < dataPoints then min (9/10) (3/10 + (dataPoints : ℚ) * (1/10))
  else 3/10

/-- WeeklyAnalyticsService.getDefaultDensityForHour
(weeklyAnalyticsService.ts:114-127). -/
def getDefaultDensityForHour (hour : ℤ) (dayOfWeek : Fin 7) : ℚ :=
  let isWeekend := dayOfWeek = 0 ∨ dayOfWeek = 6
  if 7 ≤ hour ∧ hour ≤ 9 then (if isWeekend then 4/10 else 7/10)
  else if 17 ≤ hour ∧ hour ≤ 19 then (if isWeekend then 5/10 else 8/10)
  else if 22 ≤ hour ∨ hour ≤ 6 then 2/10
  else 3/10

/-- One intraday prediction produced by createPredictions. -/
structure TrafficPredictionPoint where
  day : ℕ
  hour : ℤ
  predictedDensity : ℚ
  confidence : ℚ
deriving DecidableEq

/-- The representative hours of the hour-of-day strategy. -/
def keyHours : List ℤ := [7, 9, 12, 17, 19, 22]

/-- WeeklyAnalyticsService.createPredictions
(weeklyAnalyticsService.ts:77-112): 7 days x 6 key hours; per point, find
the matching historical row by hour; density from the row or the static
band table; confidence via `weeklyConfidence`. `dowOfDay i` is the
day-of-week of "today + i days". -/
def createPredictions (historicalData : List HistRow) (dowOfDay : ℕ → Fin 7) :
    List TrafficPredictionPoint :=
  (List.range 7).flatMap (fun d =>
    let day := d + 1
    keyHours.map (fun hour =>
      let historicalRow := historicalData.find? (fun row => row.hour = hour)
      let predictedDensity :=
        match historicalRow with
        | some row => row.avg_density
        | none => getDefaultDensityForHour hour (dowOfDay day)
      let dataPoints :=
        match historicalRow with
        | some row => row.data_points
        | none => 0
      let confidence := weeklyConfidence historicalRow.isSome dataPoints
      ⟨day, hour, predictedDensity, confidence⟩))

/-- One row of the hourly aggregate fed to generateRouteForecast: hour,
avg density, avg duration, count(*). -/
structure RouteHistRow where
  hour : ℤ
  avg_density : ℚ
  avg_duration : ℚ
  data_points : ℕ
deriving DecidableEq

/-- The route-forecast confidence (trafficAnalyticsService.ts:477):
`Math.min(0.95, 0.4 + dataPoints * 0.05)`. -/
def routeConfidence (dataPoints : ℕ) : ℚ :=
  min (95/100) (4/10 + (dataPoints : ℚ) * (5/100))

/-- TrafficAnalyticsService.getDefaultTrafficDensity
(trafficAnalyticsService.ts:553-562). -/
def getDefaultTrafficDensity (hour : ℤ) : ℚ :=
  if 7 ≤ hour ∧ hour ≤ 9 then 6/10
  else if 17 ≤ hour ∧ hour ≤ 19 then 7/10
  else if 23 ≤ hour ∨ hour ≤ 5 then 1/10
  else 3/10

/-- One hourly prediction of a route forecast. -/
structure HourlyPrediction where
  hour : ℤ
  predicted_density : ℚ
  confidence : ℚ
  expected_duration_seconds : ℤ
deriving DecidableEq

/-- TrafficAnalyticsService.generateRouteForecast, prediction part
(trafficAnalyticsService.ts:461-501): `none` when the lookback aggregate
is empty, else one prediction per hour 0..23. -/
def generateRouteForecast (historicalData : List RouteHistRow) :
    Option (List HourlyPrediction) :=
  if historicalData.length = 0 then none
  else some ((List.range 24).map (fun h =>
    let hour : ℤ := h
    match historicalData.find? (fun row => row.hour = hour) with
    | some row =>
      ⟨hour, row.avg_density, routeConfidence row.data_points, jsRound row.avg_duration⟩
    | none =>
      ⟨hour, getDefaultTrafficDensity hour, 3/10, 0⟩))

/-! Concrete example inputs used by witnesses and counterexamples. -/

/-- A date parser that accepts every string as 2024-01-01T00:00:00Z. -/
def pdConst : String → Option ℤ := fun _ => some 1704038400000

/-- A weekly summary row with three invalid optional columns
(avg_traffic_density NaN, avg_duration_seconds undefined,
avg_traffic_penalty_fraction NaN) and everything else valid. -/
def w0 : WeeklyRouteData :=
  ⟨"2024-01-01", .val 5, .val 10, .nan, .val (1/10), .val (9/10), .undef,
   .val 300, .nan, .val 12000, .val (25/2), .val 8⟩

/-- A fully valid weekly summary row whose route id is -5. -/
def wNeg : WeeklyRouteData :=
  ⟨"2024-01-01", .val (-5), .val 10, .val (1/2), .val (1/10), .val (9/10), .val 250,
   .val 300, .val (1/5), .val 12000, .val (25/2), .val 8⟩

/-- A weekly summary row identical to `wNeg` except that its route id is 0. -/
def wZero : WeeklyRouteData :=
  ⟨"2024-01-01", .val 0, .val 10, .val (1/2), .val (1/10), .val (9/10), .val 250,
   .val 300, .val (1/5), .val 12000, .val (25/2), .val 8⟩

/-- The line `createILPLine pdConst wNeg` emits. -/
def lineNeg : ILPLine :=
  ⟨"route_weekly_summary", 5,
   [("sample_count", .int 10), ("avg_traffic_density", .float (1/2)),
    ("min_traffic_density", .float (1/10)), ("max_traffic_density", .float (9/10)),
    ("avg_duration_seconds", .int 250), ("avg_duration_in_traffic_seconds", .int 300),
    ("avg_traffic_penalty_fraction", .float (1/5)), ("total_distance_meters", .int 12000),
    ("avg_speed_kmh", .float (25/2)), ("peak_hour", .int 8)],
   1704038400000000000⟩

/-- A valid traffic data record. -/
def td0 : TrafficData :=
  ⟨"2024-01-01T00:00:00.000Z", .val 1, .val (1/2), .val 300, .val 400, .val 5000, "OK"⟩

/-- The line `encodeTrafficLine pdConst td0` emits. -/
def lineTd0 : ILPLine :=
  ⟨"traffic_analytics", 1,
   [("traffic_density", .float (1/2)), ("duration", .int 300),
    ("duration_in_traffic", .int 400), ("distance", .int 5000),
    ("status", .str "OK")],
   1704038400000000000⟩

/-- A 14-day history with exactly linear daily counts 10, 11, ..., 23. -/
def linearHistory : List HistPoint :=
  (List.range 14).map (fun j => ⟨⟨j % 7, Nat.mod_lt _ (by norm_num)⟩, 10 + j⟩)

/-- The first point of `getSevenDayForecast linearHistory 6`. -/
def samplePoint : BookingForecastPoint := ⟨1, ⟨0, by norm_num⟩, 15, 21/40⟩

/-- A one-row hourly aggregate: hour 7 backed by a single sample. -/
def oneRowData : List HistRow := [⟨7, 1/2, 1⟩]

/-- The first point of `createPredictions oneRowData (fun _ => 0)`. -/
def pt0 : TrafficPredictionPoint := ⟨1, 7, 1/2, 3/10⟩

/-- The line `createILPLine pdConst w0` emits: the three invalid optional
columns are absent, all others present. -/
def line0 : ILPLine :=
  ⟨"route_weekly_summary", 5,
   [("sample_count", .int 10), ("min_traffic_density", .float (1/10)),
    ("max_traffic_density", .float (9/10)),
    ("avg_duration_in_traffic_seconds", .int 300),
    ("total_distance_meters", .int 12000), ("avg_speed_kmh", .float (25/2)),
    ("peak_hour", .int 8)],
   1704038400000000000⟩

/-! Helper lemmas about the batch loop. -/

/-- Unfolding of one productive loop iteration. -/
theorem migrateLoop_step (sourceRows total batchSize : ℕ) (dryRun : Bool)
    (offset : ℕ) (h : offset < total)
    (hf : min batchSize (sourceRows - offset) ≠ 0) :
    migrateLoop sourceRows total batchSize dryRun offset =
      ⟨(offset, min batchSize (sourceRows - offset)) ::
         (migrateLoop sourceRows total batchSize dryRun (offset + batchSize)).fetches,
       if dryRun then
         (migrateLoop sourceRows total batchSize dryRun (offset + batchSize)).writes
       else
         min batchSize (sourceRows - offset) ::
           (migrateLoop sourceRows total batchSize dryRun (offset + batchSize)).writes,
       min batchSize (sourceRows - offset) +
         (migrateLoop sourceRows total batchSize dryRun (offset + batchSize)).totalMigrated,
       (migrateLoop sourceRows total batchSize dryRun (offset + batchSize)).stopReason⟩ := by
  rw [migrateLoop]
  simp [h, hf]

/-- Unfolding of the break on an empty fetch. -/
theorem migrateLoop_break (sourceRows total batchSize : ℕ) (dryRun : Bool)
    (offset : ℕ) (h : offset < total)
    (hf : min batchSize (sourceRows - offset) = 0) :
    migrateLoop sourceRows total batchSize dryRun offset =
      ⟨[(offset, 0)], [], 0, .emptyFetch⟩ := by
  rw [migrateLoop]
  simp [h, hf]

/-- Unfolding of the loop exit through the `offset < totalRecords` guard. -/
theorem migrateLoop_exit (sourceRows total batchSize : ℕ) (dryRun : Bool)
    (offset : ℕ) (h : ¬ offset < total) :
    migrateLoop sourceRows total batchSize dryRun offset =
      ⟨[], [], 0, .offsetGuard⟩ := by
  rw [migrateLoop]
  simp [h]

/-- The 2500-row, batch-1000 scenario: full evaluation of the loop. -/
theorem migrateLoop_eval_2500 :
    migrateLoop 2500 2500 1000 false 0 =
      ⟨[(0, 1000), (1000, 1000), (2000, 500)], [1000, 1000, 500], 2500,
       .offsetGuard⟩ := by
  rw [migrateLoop_step 2500 2500 1000 false 0 (by decide) (by decide),
      migrateLoop_step 2500 2500 1000 false 1000 (by decide) (by decide),
      migrateLoop_step 2500 2500 1000 false 2000 (by decide) (by decide),
      migrateLoop_exit 2500 2500 1000 false 3000 (by decide)]
  decide

/-- The same source of 2500 rows under a stale count snapshot of 3500:
the short third fetch (500 < 1000 rows) does not stop the loop; a fourth,
empty fetch is issued and only it breaks the loop. -/
theorem migrateLoop_eval_stale :
    migrateLoop 2500 3500 1000 false 0 =
      ⟨[(0, 1000), (1000, 1000), (2000, 500), (3000, 0)], [1000, 1000, 500],
       2500, .emptyFetch⟩ := by
  rw [migrateLoop_step 2500 3500 1000 false 0 (by decide) (by decide),
      migrateLoop_step 2500 3500 1000 false 1000 (by decide) (by decide),
      migrateLoop_step 2500 3500 1000 false 2000 (by decide) (by decide),
      migrateLoop_break 2500 3500 1000 false 3000 (by decide) (by decide)]
  decide

/-- In dry-run mode the loop never records a destination write. -/
theorem migrateLoop_dryRun_writes (sourceRows total batchSize offset : ℕ) :
    (migrateLoop sourceRows total batchSize true offset).writes = [] := by
  rw [migrateLoop]
  by_cases h : offset < total
  · by_cases hf : min batchSize (sourceRows - offset) = 0
    · simp [h, hf]
    · have ih := migrateLoop_dryRun_writes sourceRows total batchSize (offset + batchSize)
      simp [h, hf, ih]
  · simp [h]
termination_by total - offset
decreasing_by
  have hb : 0 < batchSize := by
    rcases Nat.eq_zero_or_pos batchSize with h0 | h0
    · subst h0; simp at hf
    · exact h0
  omega

/-- The counted total reported by migrateTrafficAnalytics is the source
row count, independently of the dry-run flag. -/
theorem migrateTrafficAnalytics_totalRecords (sourceRows batchSize : ℕ)
    (dryRun : Bool) :
    (migrateTrafficAnalytics sourceRows batchSize dryRun).totalRecords =
      sourceRows := by
  unfold migrateTrafficAnalytics
  by_cases h : sourceRows = 0 <;> simp [h]

/-! Claim theorems. -/

/-- C1: with both sinks configured, a throwing relational (Supabase) write
inside saveTrafficDataDual means the time-series (QuestDB) sink is never
invoked — no side effect on the QuestDB gateway — and the call propagates
the relational error. -/
theorem C1_relational_error_blocks_timeseries (records : List TrafficData)
    (db qdb : List TrafficData → Except String Unit) (e : String)
    (hdb : db records = .error e) :
    (saveTrafficDataDual records (some db) (some qdb)).qdbAttempted = false ∧
    (saveTrafficDataDual records (some db) (some qdb)).result = .error e := by
  simp [saveTrafficDataDual, hdb]

/-- C1 witness at a concrete batch and a relational sink that throws. -/
theorem C1_witness :
    (saveTrafficDataDual [td0] (some (fun _ => .error "relational down"))
        (some (fun _ => .ok ()))).qdbAttempted = false ∧
    (saveTrafficDataDual [td0] (some (fun _ => .error "relational down"))
        (some (fun _ => .ok ()))).result = .error "relational down" :=
  C1_relational_error_blocks_timeseries [td0] _ _ "relational down" rfl

/-- C2 counterexample: in the 2500-row, batch-1000 scenario the loop stops
through the `offset < totalRecords` guard (offset 3000 is no longer below
the counted total 2500), not through any reaction to a fetch shorter than
batch_size; indeed, under a stale snapshot of 3500 the same short third
fetch is followed by a fourth fetch. -/
theorem C2_counterexample :
    (migrateTrafficAnalytics 2500 1000 false).loop.stopReason =
      StopReason.offsetGuard ∧
    StopReason.offsetGuard ≠ StopReason.emptyFetch ∧
    (migrateLoop 2500 3500 1000 false 0).fetches.length = 4 := by
  refine ⟨?_, by decide, ?_⟩
  · show (migrateLoop 2500 2500 1000 false 0).stopReason = _
    rw [migrateLoop_eval_2500]
  · rw [migrateLoop_eval_stale]
    rfl

/-- C2 as amended: with 2500 filtered rows and batchSize 1000, a
non-dry-run migration issues exactly 3 fetches returning 1000, 1000 and
500 rows at offsets 0, 1000, 2000, and exactly 3 destination writes; the
loop stops because the offset (3000 after the third batch) is no longer
below the counted total 2500 — a fetch shorter than batch_size is not
consulted, only an empty fetch breaks the loop early. -/
theorem C2_batch_scenario :
    (migrateTrafficAnalytics 2500 1000 false).loop.fetches =
      [(0, 1000), (1000, 1000), (2000, 500)] ∧
    (migrateTrafficAnalytics 2500 1000 false).loop.writes =
      [1000, 1000, 500] ∧
    (migrateTrafficAnalytics 2500 1000 false).loop.stopReason =
      StopReason.offsetGuard ∧
    (migrateLoop 2500 3500 1000 false 0).fetches =
      [(0, 1000), (1000, 1000), (2000, 500), (3000, 0)] ∧
    (migrateLoop 2500 3500 1000 false 0).stopReason =
      StopReason.emptyFetch := by
  have h2500 : (migrateTrafficAnalytics 2500 1000 false).loop =
      migrateLoop 2500 2500 1000 false 0 := rfl
  rw [h2500, migrateLoop_eval_2500, migrateLoop_eval_stale]
  exact ⟨rfl, rfl, rfl, rfl, rfl⟩

/-- C4: a dry-run migration performs zero destination writes (no
traffic-data writes and no weekly-summary pushes) for every source size
and batch size, and reports the same counted total as a non-dry run over
the same source. -/
theorem C4_dry_run_writes_nothing (sourceRows batchSize : ℕ)
    (weeklySummaryRows : List ℕ) :
    (migrate sourceRows batchSize true weeklySummaryRows).traffic.loop.writes
      = [] ∧
    (migrate sourceRows batchSize true weeklySummaryRows).weeklyPushes = 0 ∧
    (migrate sourceRows batchSize true weeklySummaryRows).traffic.totalRecords
      = (migrate sourceRows batchSize false
          weeklySummaryRows).traffic.totalRecords := by
  refine ⟨?_, rfl, ?_⟩
  · show (migrateTrafficAnalytics sourceRows batchSize true).loop.writes = []
    unfold migrateTrafficAnalytics
    by_cases h : sourceRows = 0
    · simp [h]
    · simp [h, migrateLoop_dryRun_writes sourceRows sourceRows batchSize 0]
  · show (migrateTrafficAnalytics sourceRows batchSize true).totalRecords =
      (migrateTrafficAnalytics sourceRows batchSize false).totalRecords
    rw [migrateTrafficAnalytics_totalRecords,
        migrateTrafficAnalytics_totalRecords]

/-- C3 counterexample: on the exactly linear history 10..23 the slope is
exactly 1, but the seven predicted counts are 15, 17, 19, 21, 23, 25, 27,
while "weekday average plus the slope applied exactly once, floored and
rounded" would give 15, 16, 17, 18, 19, 20, 21 — they differ from the
second day on. -/
theorem C3_counterexample :
    trendSlope linearHistory = 1 ∧
    (getSevenDayForecast linearHistory 6).map (fun p => p.predicted_count) =
      [15, 17, 19, 21, 23, 25, 27] ∧
    (getSevenDayForecast linearHistory 6).map
        (fun p => max 0 (jsRound (weekdayAvg linearHistory p.dow + 1))) =
      [15, 16, 17, 18, 19, 20, 21] ∧
    ([15, 17, 19, 21, 23, 25, 27] : List ℤ) ≠
      [15, 16, 17, 18, 19, 20, 21] := by
  refine ⟨by with_unfolding_all decide, by with_unfolding_all decide, by with_unfolding_all decide, by with_unfolding_all decide⟩

/-- C3 as amended: every predicted count of the 7-day booking forecast
equals that day's weekday average plus the 14-day least-squares slope
multiplied by the day index i in 1..7 (the adjustment grows with the day
index, it is not the same for all 7 days), floored at 0 after rounding to
the nearest integer; on the linear history 10..23 the slope is exactly 1,
so day i's prediction is its weekday average plus i. -/
theorem C3_trend_scaled_by_day_index :
    (∀ history startDow p, p ∈ getSevenDayForecast history startDow →
        p.predicted_count =
          max 0 (jsRound (weekdayAvg history p.dow +
            trendSlope history * (p.dayOffset : ℚ)))) ∧
    trendSlope linearHistory = 1 ∧
    (∀ p, p ∈ getSevenDayForecast linearHistory 6 →
        p.predicted_count =
          max 0 (jsRound (weekdayAvg linearHistory p.dow + (p.dayOffset : ℚ)))) := by
  have hmain : ∀ history startDow p, p ∈ getSevenDayForecast history startDow →
      p.predicted_count =
        max 0 (jsRound (weekdayAvg history p.dow +
          trendSlope history * (p.dayOffset : ℚ))) := by
    intro history startDow p hp
    simp only [getSevenDayForecast, List.mem_map, List.mem_range] at hp
    obtain ⟨k, _, rfl⟩ := hp
    have harith : (((history.length : ℚ) + ((k + 1 : ℕ) : ℚ)) -
        (history.length : ℚ)) = ((k + 1 : ℕ) : ℚ) := by ring
    simp [harith]
  refine ⟨hmain, by with_unfolding_all decide, ?_⟩
  intro p hp
  have h := hmain linearHistory 6 p hp
  have hs : trendSlope linearHistory = 1 := by with_unfolding_all decide
  rw [hs, one_mul] at h
  exact h

/-- C3 witness: the first forecast point of the linear scenario satisfies
the amended formula. -/
theorem C3_witness :
    samplePoint.predicted_count =
      max 0 (jsRound (weekdayAvg linearHistory samplePoint.dow +
        trendSlope linearHistory * (samplePoint.dayOffset : ℚ))) :=
  C3_trend_scaled_by_day_index.1 linearHistory 6 samplePoint (by with_unfolding_all decide)

/-- C10: every point of the 7-day booking forecast has a non-negative
predicted count, for every history (including empty and all-zero ones)
and every start day; integrality holds by construction, the embedded
`Math.round` producing an integer. -/
theorem C10_forecast_nonneg (history : List HistPoint) (startDow : Fin 7)
    (p : BookingForecastPoint) (hp : p ∈ getSevenDayForecast history startDow) :
    0 ≤ p.predicted_count := by
  simp only [getSevenDayForecast, List.mem_map, List.mem_range] at hp
  obtain ⟨k, _, rfl⟩ := hp
  exact le_max_left 0 _

/-- C10 witness at the linear scenario's first forecast point. -/
theorem C10_witness : 0 ≤ samplePoint.predicted_count :=
  C10_forecast_nonneg linearHistory 6 samplePoint (by with_unfolding_all decide)

/-- C5 counterexample: in the weekly hour-of-day strategy, the hour-7
point is backed by a historical row with data_points = 1, yet its
confidence is 0.3, not min(0.9, 0.3 + 0.1 * 1) = 0.4 as the claim's
formula requires. -/
theorem C5_counterexample :
    (createPredictions oneRowData (fun _ => 0)).head? = some pt0 ∧
    oneRowData.find? (fun r => r.hour = pt0.hour) = some ⟨7, 1/2, 1⟩ ∧
    pt0.confidence = 3/10 ∧
    (3/10 : ℚ) ≠ min (9/10) (3/10 + (1 : ℚ) * (1/10)) := by
  refine ⟨by with_unfolding_all decide, by with_unfolding_all decide, by with_unfolding_all decide, by with_unfolding_all decide⟩

/-- C5 as amended: a forecast point backed by no historical row has
confidence exactly 0.3 at both sites; at the route-forecast site a backed
point has confidence exactly min(0.95, 0.4 + 0.05 * data_points); at the
weekly-predictions site the formula min(0.9, 0.3 + 0.1 * data_points)
applies only when data_points > 5 (where it always evaluates to 0.9) —
a backed point with data_points ≤ 5 keeps the fallback confidence 0.3. -/
theorem C5_confidence_per_site :
    (∀ data dowOf p, p ∈ createPredictions data dowOf →
      ((data.find? (fun r => r.hour = p.hour) = none → p.confidence = 3/10) ∧
       (∀ row, data.find? (fun r => r.hour = p.hour) = some row →
          p.confidence =
            if 5 < row.data_points then
              min (9/10) (3/10 + (row.data_points : ℚ) * (1/10))
            else 3/10))) ∧
    (∀ rdata preds, generateRouteForecast rdata = some preds →
      ∀ q, q ∈ preds →
        ((rdata.find? (fun r => r.hour = q.hour) = none → q.confidence = 3/10) ∧
         (∀ row, rdata.find? (fun r => r.hour = q.hour) = some row →
            q.confidence =
              min (95/100) (4/10 + (row.data_points : ℚ) * (5/100))))) := by
  constructor
  · intro data dowOf p hp
    simp only [createPredictions, List.mem_flatMap, List.mem_map,
      List.mem_range] at hp
    obtain ⟨d, _, hour, _, rfl⟩ := hp
    constructor
    · intro hnone
      simp only at hnone
      simp [weeklyConfidence, hnone]
    · intro row hrow
      simp only at hrow
      simp [weeklyConfidence, hrow]
  · intro rdata preds hpreds q hq
    unfold generateRouteForecast at hpreds
    by_cases hz : rdata.length = 0
    · simp [hz] at hpreds
    · rw [if_neg hz] at hpreds
      obtain rfl := Option.some.inj hpreds
      simp only [List.mem_map, List.mem_range] at hq
      obtain ⟨h, _, rfl⟩ := hq
      cases hfind : rdata.find? (fun row => row.hour = (h : ℤ)) with
      | none => simp [hfind]
      | some row => simp [hfind, routeConfidence]

/-- C5 witness: the weekly site's hour-7 point, backed by a row with a
single sample, gets the amended conditional confidence. -/
theorem C5_witness :
    pt0.confidence =
      (if 5 < (HistRow.data_points ⟨7, 1/2, 1⟩) then
        min (9/10) (3/10 + ((HistRow.data_points ⟨7, 1/2, 1⟩ : ℕ) : ℚ) * (1/10))
      else 3/10) :=
  (C5_confidence_per_site.1 oneRowData (fun _ => 0) pt0 (by with_unfolding_all decide)).2
    ⟨7, 1/2, 1⟩ (by with_unfolding_all decide)

/-- C6: at each of the three forecasting call sites the confidence is a
non-decreasing function of the backing sample count with the other inputs
fixed, and every produced forecast point's confidence lies in [0, 0.95]. -/
theorem C6_confidence_monotone_bounded :
    (∀ found n m, n ≤ m →
        weeklyConfidence found n ≤ weeklyConfidence found m) ∧
    (∀ n m, n ≤ m → routeConfidence n ≤ routeConfidence m) ∧
    (∀ n m, n ≤ m → bookingConfidence n ≤ bookingConfidence m) ∧
    (∀ data dowOf p, p ∈ createPredictions data dowOf →
        0 ≤ p.confidence ∧ p.confidence ≤ 95/100) ∧
    (∀ rdata preds, generateRouteForecast rdata = some preds →
        ∀ q, q ∈ preds → 0 ≤ q.confidence ∧ q.confidence ≤ 95/100) ∧
    (∀ history startDow p, p ∈ getSevenDayForecast history startDow →
        0 ≤ p.confidence ∧ p.confidence ≤ 95/100) := by
  have hweekly_bounds : ∀ found n, 0 ≤ weeklyConfidence found n ∧
      weeklyConfidence found n ≤ 95/100 := by
    intro found n
    unfold weeklyConfidence
    split
    · constructor
      · refine le_min (by norm_num) ?_
        positivity
      · exact (min_le_left _ _).trans (by norm_num)
    · norm_num
  have hroute_bounds : ∀ n, 0 ≤ routeConfidence n ∧
      routeConfidence n ≤ 95/100 := by
    intro n
    unfold routeConfidence
    constructor
    · refine le_min (by norm_num) ?_
      positivity
    · exact min_le_left _ _
  have hbooking_bounds : ∀ n, 0 ≤ bookingConfidence n ∧
      bookingConfidence n ≤ 95/100 := by
    intro n
    unfold bookingConfidence
    constructor
    · refine le_min (by norm_num) ?_
      have h1 : (0 : ℚ) ≤ min 1 ((n : ℚ) / 8) := by
        refine le_min (by norm_num) ?_
        positivity
      nlinarith
    · exact min_le_left _ _
  refine ⟨?_, ?_, ?_, ?_, ?_, ?_⟩
  · intro found n m hnm
    unfold weeklyConfidence
    by_cases hn : found = true ∧ 5 < n
    · have hm : found = true ∧ 5 < m := ⟨hn.1, lt_of_lt_of_le hn.2 hnm⟩
      rw [if_pos hn, if_pos hm]
      refine min_le_min le_rfl ?_
      have : (n : ℚ) ≤ (m : ℚ) := by exact_mod_cast hnm
      nlinarith
    · rw [if_neg hn]
      split
      · refine le_min (by norm_num) ?_
        have : (0 : ℚ) ≤ (m : ℚ) := by positivity
        nlinarith
      · exact le_rfl
  · intro n m hnm
    unfold routeConfidence
    refine min_le_min le_rfl ?_
    have : (n : ℚ) ≤ (m : ℚ) := by exact_mod_cast hnm
    nlinarith
  · intro n m hnm
    unfold bookingConfidence
    refine min_le_min le_rfl ?_
    have h1 : (n : ℚ) / 8 ≤ (m : ℚ) / 8 := by
      have : (n : ℚ) ≤ (m : ℚ) := by exact_mod_cast hnm
      linarith
    have h2 : min 1 ((n : ℚ) / 8) ≤ min 1 ((m : ℚ) / 8) :=
      min_le_min le_rfl h1
    nlinarith
  · intro data dowOf p hp
    simp only [createPredictions, List.mem_flatMap, List.mem_map,
      List.mem_range] at hp
    obtain ⟨d, _, hour, _, rfl⟩ := hp
    exact hweekly_bounds _ _
  · intro rdata preds hpreds q hq
    unfold generateRouteForecast at hpreds
    by_cases hz : rdata.length = 0
    · simp [hz] at hpreds
    · rw [if_neg hz] at hpreds
      obtain rfl := Option.some.inj hpreds
      simp only [List.mem_map, List.mem_range] at hq
      obtain ⟨h, _, rfl⟩ := hq
      cases hfind : rdata.find? (fun row => row.hour = (h : ℤ)) with
      | none => simp [hfind]; norm_num
      | some row => simp [hfind]; exact hroute_bounds _
  · intro history startDow p hp
    simp only [getSevenDayForecast, List.mem_map, List.mem_range] at hp
    obtain ⟨k, _, rfl⟩ := hp
    exact hbooking_bounds _

/-- C6 witness at concrete sample counts and the produced points of the
concrete scenarios. -/
theorem C6_witness :
    weeklyConfidence true 1 ≤ weeklyConfidence true 6 ∧
    routeConfidence 2 ≤ routeConfidence 3 ∧
    bookingConfidence 4 ≤ bookingConfidence 9 ∧
    (0 ≤ pt0.confidence ∧ pt0.confidence ≤ 95/100) ∧
    (0 ≤ samplePoint.confidence ∧ samplePoint.confidence ≤ 95/100) :=
  ⟨C6_confidence_monotone_bounded.1 true 1 6 (by norm_num),
   C6_confidence_monotone_bounded.2.1 2 3 (by norm_num),
   C6_confidence_monotone_bounded.2.2.1 4 9 (by norm_num),
   C6_confidence_monotone_bounded.2.2.2.1 oneRowData (fun _ => 0) pt0
     (by with_unfolding_all decide),
   C6_confidence_monotone_bounded.2.2.2.2.2 linearHistory 6 samplePoint
     (by with_unfolding_all decide)⟩

/-! Helper lemmas about the ILP encoder. -/

/-- Membership in a conditional singleton-or-empty list. -/
theorem mem_ite_nil {α : Type} (a : α) (c : Prop) [Decidable c]
    (l : List α) : a ∈ (if c then l else []) ↔ c ∧ a ∈ l := by
  split <;> simp [*]

/-- Field names contributed by one optional integer field. -/
theorem optIntField_names (name : String) (v : JsNum) :
    (optIntField name v).map Prod.fst =
      if isValidNumber v then [name] else [] := by
  unfold optIntField
  split <;> rfl

/-- Field names contributed by one optional float field. -/
theorem optFloatField_names (name : String) (p : ℕ) (v : JsNum) :
    (optFloatField name p v).map Prod.fst =
      if isValidNumber v then [name] else [] := by
  unfold optFloatField
  split <;> rfl

/-- The names of the fields createILPLine emits: the required
`sample_count`, then exactly the optional columns that pass
`isValidNumber`. -/
theorem ilpFields_names (d : WeeklyRouteData) (sc : ℤ) :
    (ilpFields d sc).map Prod.fst =
      "sample_count" ::
        ((if isValidNumber d.avg_traffic_density then ["avg_traffic_density"] else []) ++
         (if isValidNumber d.min_traffic_density then ["min_traffic_density"] else []) ++
         (if isValidNumber d.max_traffic_density then ["max_traffic_density"] else []) ++
         (if isValidNumber d.avg_duration_seconds then ["avg_duration_seconds"] else []) ++
         (if isValidNumber d.avg_duration_in_traffic_seconds then
            ["avg_duration_in_traffic_seconds"] else []) ++
         (if isValidNumber d.avg_traffic_penalty_fraction then
            ["avg_traffic_penalty_fraction"] else []) ++
         (if isValidNumber d.total_distance_meters then ["total_distance_meters"] else []) ++
         (if isValidNumber d.avg_speed_kmh then ["avg_speed_kmh"] else []) ++
         (if isValidNumber d.peak_hour then ["peak_hour"] else [])) := by
  simp [ilpFields, optIntField_names, optFloatField_names]

/-- The field list is never empty: `sample_count` is always pushed first. -/
theorem ilpFields_isEmpty (d : WeeklyRouteData) (sc : ℤ) :
    (ilpFields d sc).isEmpty = false := by
  simp [ilpFields]

/-- Elimination form of a successful createILPLine call. -/
theorem createILPLine_ok_elim (parseDate : String → Option ℤ)
    (d : WeeklyRouteData) (l : ILPLine)
    (h : createILPLine parseDate d = .ok l) :
    ∃ q ms, d.route_id = JsNum.val q ∧ q ≠ 0 ∧ d.week_start ≠ "" ∧
      parseDate d.week_start = some ms ∧
      isValidNumber d.sample_count = true ∧
      l = ⟨"route_weekly_summary", |jsTrunc q|,
           ilpFields d (jsTrunc d.sample_count.getQ), ms * 1000000⟩ := by
  obtain ⟨ws, rid, sc, a1, a2, a3, a4, a5, a6, a7, a8, a9⟩ := d
  simp only [createILPLine] at h
  cases rid with
  | undef => simp [JsNum.falsy] at h
  | nan => simp [JsNum.falsy] at h
  | val q =>
    by_cases hq : q = 0
    · subst hq; simp [JsNum.falsy] at h
    · by_cases hws : ws = ""
      · simp [JsNum.falsy, hq, hws] at h
      · rw [if_neg (by simp [JsNum.falsy, hq, hws])] at h
        simp only [parseIntAbs] at h
        cases hpd : parseDate ws with
        | none =>
          rw [hpd] at h
          exact absurd h (by simp)
        | some ms =>
          rw [hpd] at h
          cases sc with
          | undef => simp [sanitizeInteger] at h
          | nan => simp [sanitizeInteger] at h
          | val r =>
            simp only [sanitizeInteger, ilpFields_isEmpty,
              Bool.false_eq_true, if_false, Except.ok.injEq] at h
            exact ⟨q, ms, rfl, hq, hws, rfl, rfl, h.symm⟩

/-- Introduction form: when the required inputs are valid the encoder
succeeds, tagging with the absolute value of the truncated route id. -/
theorem createILPLine_ok_intro (parseDate : String → Option ℤ)
    (d : WeeklyRouteData) (ms : ℤ)
    (hfal : d.route_id.falsy = false) (hws : d.week_start ≠ "")
    (hpd : parseDate d.week_start = some ms)
    (hsc : isValidNumber d.sample_count = true) :
    createILPLine parseDate d =
      .ok ⟨"route_weekly_summary", |jsTrunc d.route_id.getQ|,
           ilpFields d (jsTrunc d.sample_count.getQ), ms * 1000000⟩ := by
  unfold createILPLine
  cases hrid : d.route_id with
  | undef => rw [hrid] at hfal; simp [JsNum.falsy] at hfal
  | nan => rw [hrid] at hfal; simp [JsNum.falsy] at hfal
  | val q =>
    rw [hrid] at hfal
    have hq : ¬ q = 0 := by simpa [JsNum.falsy] using hfal
    cases hscv : d.sample_count with
    | undef => rw [hscv] at hsc; simp [isValidNumber] at hsc
    | nan => rw [hscv] at hsc; simp [isValidNumber] at hsc
    | val r =>
      simp [JsNum.falsy, hq, hws, parseIntAbs, hpd, sanitizeInteger, hscv,
        ilpFields_isEmpty, JsNum.getQ, hrid]

/-- C7: in a successfully encoded line, every NaN/undefined optional
numeric field is omitted (and that invalidity is never a hard failure:
any record agreeing on the required route_id, week_start and sample_count
still encodes), every valid optional field is present, and the required
sample_count field is never omitted. -/
theorem C7_invalid_fields_omitted (parseDate : String → Option ℤ)
    (d : WeeklyRouteData) (l : ILPLine)
    (h : createILPLine parseDate d = .ok l) :
    "sample_count" ∈ l.fields.map Prod.fst ∧
    ((isValidNumber d.avg_traffic_density = false →
        "avg_traffic_density" ∉ l.fields.map Prod.fst) ∧
     (isValidNumber d.avg_traffic_density = true →
        "avg_traffic_density" ∈ l.fields.map Prod.fst)) ∧
    ((isValidNumber d.min_traffic_density = false →
        "min_traffic_density" ∉ l.fields.map Prod.fst) ∧
     (isValidNumber d.min_traffic_density = true →
        "min_traffic_density" ∈ l.fields.map Prod.fst)) ∧
    ((isValidNumber d.max_traffic_density = false →
        "max_traffic_density" ∉ l.fields.map Prod.fst) ∧
     (isValidNumber d.max_traffic_density = true →
        "max_traffic_density" ∈ l.fields.map Prod.fst)) ∧
    ((isValidNumber d.avg_duration_seconds = false →
        "avg_duration_seconds" ∉ l.fields.map Prod.fst) ∧
     (isValidNumber d.avg_duration_seconds = true →
        "avg_duration_seconds" ∈ l.fields.map Prod.fst)) ∧
    ((isValidNumber d.avg_duration_in_traffic_seconds = false →
        "avg_duration_in_traffic_seconds" ∉ l.fields.map Prod.fst) ∧
     (isValidNumber d.avg_duration_in_traffic_seconds = true →
        "avg_duration_in_traffic_seconds" ∈ l.fields.map Prod.fst)) ∧
    ((isValidNumber d.avg_traffic_penalty_fraction = false →
        "avg_traffic_penalty_fraction" ∉ l.fields.map Prod.fst) ∧
     (isValidNumber d.avg_traffic_penalty_fraction = true →
        "avg_traffic_penalty_fraction" ∈ l.fields.map Prod.fst)) ∧
    ((isValidNumber d.total_distance_meters = false →
        "total_distance_meters" ∉ l.fields.map Prod.fst) ∧
     (isValidNumber d.total_distance_meters = true →
        "total_distance_meters" ∈ l.fields.map Prod.fst)) ∧
    ((isValidNumber d.avg_speed_kmh = false →
        "avg_speed_kmh" ∉ l.fields.map Prod.fst) ∧
     (isValidNumber d.avg_speed_kmh = true →
        "avg_speed_kmh" ∈ l.fields.map Prod.fst)) ∧
    ((isValidNumber d.peak_hour = false →
        "peak_hour" ∉ l.fields.map Prod.fst) ∧
     (isValidNumber d.peak_hour = true →
        "peak_hour" ∈ l.fields.map Prod.fst)) ∧
    (∀ d2 : WeeklyRouteData, d2.route_id = d.route_id →
        d2.week_start = d.week_start → d2.sample_count = d.sample_count →
        ∃ l2, createILPLine parseDate d2 = .ok l2) := by
  obtain ⟨q, ms, hrid, hq, hws, hpd, hsc, rfl⟩ :=
    createILPLine_ok_elim parseDate d l h
  refine ⟨by simp [ilpFields_names],
    ⟨fun hX => by simp [ilpFields_names, mem_ite_nil, hX],
     fun hX => by simp [ilpFields_names, mem_ite_nil, hX]⟩,
    ⟨fun hX => by simp [ilpFields_names, mem_ite_nil, hX],
     fun hX => by simp [ilpFields_names, mem_ite_nil, hX]⟩,
    ⟨fun hX => by simp [ilpFields_names, mem_ite_nil, hX],
     fun hX => by simp [ilpFields_names, mem_ite_nil, hX]⟩,
    ⟨fun hX => by simp [ilpFields_names, mem_ite_nil, hX],
     fun hX => by simp [ilpFields_names, mem_ite_nil, hX]⟩,
    ⟨fun hX => by simp [ilpFields_names, mem_ite_nil, hX],
     fun hX => by simp [ilpFields_names, mem_ite_nil, hX]⟩,
    ⟨fun hX => by simp [ilpFields_names, mem_ite_nil, hX],
     fun hX => by simp [ilpFields_names, mem_ite_nil, hX]⟩,
    ⟨fun hX => by simp [ilpFields_names, mem_ite_nil, hX],
     fun hX => by simp [ilpFields_names, mem_ite_nil, hX]⟩,
    ⟨fun hX => by simp [ilpFields_names, mem_ite_nil, hX],
     fun hX => by simp [ilpFields_names, mem_ite_nil, hX]⟩,
    ⟨fun hX => by simp [ilpFields_names, mem_ite_nil, hX],
     fun hX => by simp [ilpFields_names, mem_ite_nil, hX]⟩,
    fun d2 h1 h2 h3 => ?_⟩
  refine ⟨_, createILPLine_ok_intro parseDate d2 ms ?_ ?_ ?_ ?_⟩
  · rw [h1, hrid]
    simp [JsNum.falsy, hq]
  · rw [h2]
    exact hws
  · rw [h2]
    exact hpd
  · rw [h3]
    exact hsc

/-- C7 witness: the record w0 (NaN avg_traffic_density, undefined
avg_duration_seconds, NaN avg_traffic_penalty_fraction) still encodes; the
invalid columns are absent, a valid one and the required count present. -/
theorem C7_witness :
    "sample_count" ∈ line0.fields.map Prod.fst ∧
    "avg_traffic_density" ∉ line0.fields.map Prod.fst ∧
    "min_traffic_density" ∈ line0.fields.map Prod.fst := by
  have hok : createILPLine pdConst w0 = .ok line0 := by
    with_unfolding_all rfl
  exact ⟨(C7_invalid_fields_omitted pdConst w0 line0 hok).1,
    (C7_invalid_fields_omitted pdConst w0 line0 hok).2.1.1 rfl,
    (C7_invalid_fields_omitted pdConst w0 line0 hok).2.2.1.2 rfl⟩

/-- C8 counterexample: a record whose entity id is 0, with a valid
timestamp, a valid required count and many valid fields, is rejected by
the encoder's truthiness guard — the claim's "including 0" is false. -/
theorem C8_counterexample :
    wZero.route_id = JsNum.val 0 ∧
    pdConst wZero.week_start = some 1704038400000 ∧
    isValidNumber wZero.sample_count = true ∧
    createILPLine pdConst wZero =
      .error "Invalid data: route_id and week_start are required" := by
  refine ⟨rfl, rfl, rfl, by with_unfolding_all rfl⟩

/-- C8 as amended: createILPLine succeeds exactly when the entity id is a
truthy finite number (so a missing, NaN or zero id is rejected — id 0 is
not accepted), the week_start is nonempty and parses to a valid instant,
and the required sample_count is numeric (a NaN sample_count throws, and
the no-valid-field error is unreachable since sample_count is always
emitted); every encoded line tags the absolute value of the truncated id,
hence negative ids are encoded by absolute value. -/
theorem C8_validation_exactly (parseDate : String → Option ℤ)
    (d : WeeklyRouteData) :
    ((∃ l, createILPLine parseDate d = .ok l) ↔
      (d.route_id.falsy = false ∧ d.week_start ≠ "" ∧
       (∃ ms, parseDate d.week_start = some ms) ∧
       isValidNumber d.sample_count = true)) ∧
    (∀ l, createILPLine parseDate d = .ok l →
      l.route_id_tag = |jsTrunc d.route_id.getQ| ∧ 0 ≤ l.route_id_tag) := by
  constructor
  · constructor
    · rintro ⟨l, hl⟩
      obtain ⟨q, ms, hrid, hq, hws, hpd, hsc, rfl⟩ :=
        createILPLine_ok_elim parseDate d l hl
      exact ⟨by rw [hrid]; simp [JsNum.falsy, hq], hws, ⟨ms, hpd⟩, hsc⟩
    · rintro ⟨hfal, hws, ⟨ms, hpd⟩, hsc⟩
      exact ⟨_, createILPLine_ok_intro parseDate d ms hfal hws hpd hsc⟩
  · intro l hl
    obtain ⟨q, ms, hrid, hq, hws, hpd, hsc, rfl⟩ :=
      createILPLine_ok_elim parseDate d l hl
    rw [hrid]
    exact ⟨rfl, abs_nonneg _⟩

/-- C8 witness: the record with id -5 encodes with tag 5 = abs(-5). -/
theorem C8_witness :
    lineNeg.route_id_tag = |jsTrunc wNeg.route_id.getQ| ∧
    0 ≤ lineNeg.route_id_tag :=
  (C8_validation_exactly pdConst wNeg).2 lineNeg (by with_unfolding_all rfl)

/-- C9 counterexample: saveTrafficDataToQuestDB issues the POST and then
returns success even though the ingest endpoint answered 500 — the claim
that it raises on every non-2xx response is false. -/
theorem C9_counterexample :
    (saveTrafficDataToQuestDB pdConst [td0] ⟨500⟩).result = .ok () ∧
    (saveTrafficDataToQuestDB pdConst [td0] ⟨500⟩).fetched = true ∧
    HttpResponse.respOk ⟨500⟩ = false := by
  refine ⟨by with_unfolding_all rfl, by with_unfolding_all rfl, by decide⟩

/-- C9 as amended: pushToQuestDB raises an error to its caller whenever
the ingest endpoint answers a non-2xx status (for every nonempty,
encodable batch), but saveTrafficDataToQuestDB never inspects the
response status: it returns success for every response whenever its
records encode. -/
theorem C9_non2xx_push_only (parseDate : String → Option ℤ)
    (w : List WeeklyRouteData) (t : List TrafficData) (resp : HttpResponse)
    (lw lt : List ILPLine) (hw : w ≠ [])
    (hwe : w.mapM (createILPLine parseDate) = .ok lw)
    (hte : t.mapM (encodeTrafficLine parseDate) = .ok lt)
    (hresp : resp.respOk = false) :
    (∃ e, (pushToQuestDB parseDate w resp).result = .error e) ∧
    (pushToQuestDB parseDate w resp).fetched = true ∧
    (saveTrafficDataToQuestDB parseDate t resp).result = .ok () := by
  have hne : w.isEmpty = false := by
    cases w with
    | nil => exact absurd rfl hw
    | cons a l => rfl
  refine ⟨?_, ?_, ?_⟩
  · unfold pushToQuestDB
    rw [hne, hwe]
    simp [hresp]
  · unfold pushToQuestDB
    rw [hne, hwe]
    simp [hresp]
  · unfold saveTrafficDataToQuestDB
    cases ht0 : t.isEmpty with
    | true => simp
    | false => rw [hte]; simp

/-- C9 witness at a concrete batch and a 500 response. -/
theorem C9_witness :
    (∃ e, (pushToQuestDB pdConst [wNeg] ⟨500⟩).result = .error e) ∧
    (pushToQuestDB pdConst [wNeg] ⟨500⟩).fetched = true ∧
    (saveTrafficDataToQuestDB pdConst [td0] ⟨500⟩).result = .ok () :=
  C9_non2xx_push_only pdConst [wNeg] [td0] ⟨500⟩ [lineNeg] [lineTd0]
    (by simp) (by with_unfolding_all rfl) (by with_unfolding_all rfl)
    (by decide)

end Pasada
